import Mathlib

/-!
# Scattering-matrix post-processing of the bempp ice-crystal notebooks

The notebooks compute, from two far-field solutions `ffp_z` and `ffp_y`
(3×N complex arrays, one row per Cartesian component) and the angle grid
`theta = np.linspace(0, 2*np.pi, 3601)`, the four complex amplitude
scattering matrix entries

    A22 = -1j * kExt * ffp_z[2,:]
    A12 = -1j * kExt * (- np.sin(theta) * ffp_z[0,:] + np.cos(theta) * ffp_z[1,:])
    A11 = -1j * kExt * (- np.sin(theta) * ffp_y[0,:] + np.cos(theta) * ffp_y[1,:])
    A21 = -1j * kExt * ffp_y[2,:]

and from those the sixteen real phase (Mueller) scattering matrix entries
`S11 .. S44`.  This file embeds those array expressions over `List ℂ` /
`List ℝ` (exact real and complex arithmetic standing in for the float
arithmetic of numpy) and proves the specified properties.
-/

open Complex Real

noncomputable section

/-- One far-field sample: the complex 3-vector `(Ex, Ey, Ez)` at one
direction.  A far-field array `ffp_z` (3×N) is modelled as a `List CVec3`
of its N columns; the numpy rows `ffp_z[0,:]`, `ffp_z[1,:]`, `ffp_z[2,:]`
are recovered by mapping the field projections. -/
structure CVec3 where
  x : ℂ
  y : ℂ
  z : ℂ

/-- Elementwise `+` of numpy on two aligned complex 1-D arrays. -/
def vAddC (xs ys : List ℂ) : List ℂ := List.zipWith (fun a b => a + b) xs ys

/-- Elementwise `*` of numpy on two aligned complex 1-D arrays. -/
def vMulC (xs ys : List ℂ) : List ℂ := List.zipWith (fun a b => a * b) xs ys

/-- Scalar `*` of numpy: a complex scalar times a complex 1-D array. -/
def sMulC (c : ℂ) (xs : List ℂ) : List ℂ := xs.map (fun a => c * a)

/-- Elementwise unary `-` of numpy on a complex 1-D array. -/
def vNegC (xs : List ℂ) : List ℂ := xs.map (fun a => -a)

/-- `np.sin` on the (real) angle array, viewed in ℂ as numpy does when the
result is combined with complex arrays. -/
def vSinC (ts : List ℝ) : List ℂ := ts.map (fun t => (Real.sin t : ℂ))

/-- `np.cos` on the (real) angle array, viewed in ℂ. -/
def vCosC (ts : List ℝ) : List ℂ := ts.map (fun t => (Real.cos t : ℂ))

/-- The exterior wavenumber of the notebooks: `kExt = 5.`. -/
def kExt : ℂ := 5

/-- The i-th entry of `theta = np.linspace(0, 2 * np.pi, 3601)`:
`linspace` places 3601 equally spaced points from 0 to 2π inclusive,
so the i-th is `i * 2π / 3600`. -/
def theta (i : ℕ) : ℝ := i * (2 * Real.pi) / 3600

/-- The full angle array `theta` of the notebooks (length 3601). -/
def thetaList : List ℝ := (List.range 3601).map theta

/-- `points = np.vstack([np.cos(theta), np.sin(theta), 0. * theta])`:
the list of direction vectors (columns of `points`). -/
def pointsList : List (ℝ × ℝ × ℝ) :=
  thetaList.map (fun t => (Real.cos t, Real.sin t, 0))

/-- `A22 = -1j * kExt * ffp_z[2,:]` with the wavenumber and far field as
explicit parameters. -/
def A22 (k : ℂ) (Fz : List CVec3) : List ℂ :=
  sMulC (-Complex.I * k) (Fz.map CVec3.z)

/-- `A12 = -1j * kExt * (- np.sin(theta) * ffp_z[0,:] + np.cos(theta) * ffp_z[1,:])`. -/
def A12 (k : ℂ) (ts : List ℝ) (Fz : List CVec3) : List ℂ :=
  sMulC (-Complex.I * k)
    (vAddC (vMulC (vNegC (vSinC ts)) (Fz.map CVec3.x))
      (vMulC (vCosC ts) (Fz.map CVec3.y)))

/-- `A11 = -1j * kExt * (- np.sin(theta) * ffp_y[0,:] + np.cos(theta) * ffp_y[1,:])`. -/
def A11 (k : ℂ) (ts : List ℝ) (Fy : List CVec3) : List ℂ :=
  sMulC (-Complex.I * k)
    (vAddC (vMulC (vNegC (vSinC ts)) (Fy.map CVec3.x))
      (vMulC (vCosC ts) (Fy.map CVec3.y)))

/-- `A21 = -1j * kExt * ffp_y[2,:]`. -/
def A21 (k : ℂ) (Fy : List CVec3) : List ℂ :=
  sMulC (-Complex.I * k) (Fy.map CVec3.z)

/-- The four amplitude entries bundled, in the order `(A11, A12, A21, A22)`:
the Amplitude Scattering Matrix Builder as one function of its inputs. -/
def amplitudeMatrix (k : ℂ) (ts : List ℝ) (Fz Fy : List CVec3) :
    List ℂ × List ℂ × List ℂ × List ℂ :=
  (A11 k ts Fy, A12 k ts Fz, A21 k Fy, A22 k Fz)

/-- Elementwise `+` of numpy on two aligned real 1-D arrays. -/
def vAddR (xs ys : List ℝ) : List ℝ := List.zipWith (fun a b => a + b) xs ys

/-- Elementwise `-` of numpy on two aligned real 1-D arrays. -/
def vSubR (xs ys : List ℝ) : List ℝ := List.zipWith (fun a b => a - b) xs ys

/-- Scalar `*` of numpy: a real scalar times a real 1-D array (the `0.5*`
factor of the notebooks). -/
def sMulR (c : ℝ) (xs : List ℝ) : List ℝ := xs.map (fun a => c * a)

/-- Elementwise `-` of numpy on two aligned complex 1-D arrays. -/
def vSubC (xs ys : List ℂ) : List ℂ := List.zipWith (fun a b => a - b) xs ys

/-- numpy `abs` of a complex array: the elementwise modulus. -/
def vAbs (xs : List ℂ) : List ℝ := xs.map Complex.abs

/-- numpy `**2` on a real array. -/
def vPow2 (xs : List ℝ) : List ℝ := xs.map (fun a => a ^ 2)

/-- `np.conjugate` on a complex array. -/
def vConj (xs : List ℂ) : List ℂ := xs.map (fun a => (starRingEnd ℂ) a)

/-- `np.real` of a complex array. -/
def vRe (xs : List ℂ) : List ℝ := xs.map Complex.re

/-- `np.imag` of a complex array. -/
def vIm (xs : List ℂ) : List ℝ := xs.map Complex.im

/-- `S11 = 0.5*(abs(A11)**2+abs(A22)**2+abs(A21)**2+abs(A12)**2)`. -/
def S11 (a11 a12 a21 a22 : List ℂ) : List ℝ :=
  sMulR (1 / 2)
    (vAddR (vAddR (vAddR (vPow2 (vAbs a11)) (vPow2 (vAbs a22))) (vPow2 (vAbs a21)))
      (vPow2 (vAbs a12)))

/-- `S12 = 0.5*(abs(A11)**2-abs(A22)**2+abs(A21)**2-abs(A12)**2)`. -/
def S12 (a11 a12 a21 a22 : List ℂ) : List ℝ :=
  sMulR (1 / 2)
    (vSubR (vAddR (vSubR (vPow2 (vAbs a11)) (vPow2 (vAbs a22))) (vPow2 (vAbs a21)))
      (vPow2 (vAbs a12)))

/-- `S13 = np.real(A11*np.conjugate(A12)+A22*np.conjugate(A21))`. -/
def S13 (a11 a12 a21 a22 : List ℂ) : List ℝ :=
  vRe (vAddC (vMulC a11 (vConj a12)) (vMulC a22 (vConj a21)))

/-- `S14 = np.imag(A11*np.conjugate(A12)-A22*np.conjugate(A21))`. -/
def S14 (a11 a12 a21 a22 : List ℂ) : List ℝ :=
  vIm (vSubC (vMulC a11 (vConj a12)) (vMulC a22 (vConj a21)))

/-- `S21 = 0.5*(abs(A11)**2-abs(A22)**2-abs(A21)**2+abs(A12)**2)`. -/
def S21 (a11 a12 a21 a22 : List ℂ) : List ℝ :=
  sMulR (1 / 2)
    (vAddR (vSubR (vSubR (vPow2 (vAbs a11)) (vPow2 (vAbs a22))) (vPow2 (vAbs a21)))
      (vPow2 (vAbs a12)))

/-- `S22 = 0.5*(abs(A11)**2+abs(A22)**2-abs(A21)**2-abs(A12)**2)`. -/
def S22 (a11 a12 a21 a22 : List ℂ) : List ℝ :=
  sMulR (1 / 2)
    (vSubR (vSubR (vAddR (vPow2 (vAbs a11)) (vPow2 (vAbs a22))) (vPow2 (vAbs a21)))
      (vPow2 (vAbs a12)))

/-- `S23 = np.real(A11*np.conjugate(A12)-A22*np.conjugate(A21))`. -/
def S23 (a11 a12 a21 a22 : List ℂ) : List ℝ :=
  vRe (vSubC (vMulC a11 (vConj a12)) (vMulC a22 (vConj a21)))

/-- `S24 = np.imag(A11*np.conjugate(A12)+A22*np.conjugate(A21))`. -/
def S24 (a11 a12 a21 a22 : List ℂ) : List ℝ :=
  vIm (vAddC (vMulC a11 (vConj a12)) (vMulC a22 (vConj a21)))

/-- `S31 = np.real(A11*np.conjugate(A21)+A22*np.conjugate(A12))`. -/
def S31 (a11 a12 a21 a22 : List ℂ) : List ℝ :=
  vRe (vAddC (vMulC a11 (vConj a21)) (vMulC a22 (vConj a12)))

/-- `S32 = np.real(A11*np.conjugate(A21)-A22*np.conjugate(A12))`. -/
def S32 (a11 a12 a21 a22 : List ℂ) : List ℝ :=
  vRe (vSubC (vMulC a11 (vConj a21)) (vMulC a22 (vConj a12)))

/-- `S33 = np.real(np.conjugate(A11)*A22+A12*np.conjugate(A21))`. -/
def S33 (a11 a12 a21 a22 : List ℂ) : List ℝ :=
  vRe (vAddC (vMulC (vConj a11) a22) (vMulC a12 (vConj a21)))

/-- `S34 = np.imag(A11*np.conjugate(A22)+A21*np.conjugate(A12))`. -/
def S34 (a11 a12 a21 a22 : List ℂ) : List ℝ :=
  vIm (vAddC (vMulC a11 (vConj a22)) (vMulC a21 (vConj a12)))

/-- `S41 = np.imag(np.conjugate(A11)*A21+np.conjugate(A12)*A22)`. -/
def S41 (a11 a12 a21 a22 : List ℂ) : List ℝ :=
  vIm (vAddC (vMulC (vConj a11) a21) (vMulC (vConj a12) a22))

/-- `S42 = np.imag(np.conjugate(A11)*A21-np.conjugate(A12)*A22)`. -/
def S42 (a11 a12 a21 a22 : List ℂ) : List ℝ :=
  vIm (vSubC (vMulC (vConj a11) a21) (vMulC (vConj a12) a22))

/-- `S43 = np.imag(A22*np.conjugate(A11)-A12*np.conjugate(A21))`. -/
def S43 (a11 a12 a21 a22 : List ℂ) : List ℝ :=
  vIm (vSubC (vMulC a22 (vConj a11)) (vMulC a12 (vConj a21)))

/-- `S44 = np.real(np.conjugate(A11)*A22-A12*np.conjugate(A21))`. -/
def S44 (a11 a12 a21 a22 : List ℂ) : List ℝ :=
  vRe (vSubC (vMulC (vConj a11) a22) (vMulC a12 (vConj a21)))

/-- The synthetic constant z-polarized far field of the round-trip scenario:
`F_z[i] = (0, 0, 1)` for all `i` on the 3601-point grid. -/
def FzSynth : List CVec3 := List.replicate 3601 ⟨0, 0, 1⟩

/-- The synthetic constant y-polarized far field of the round-trip scenario:
`F_y[i] = (0, 1, 0)` for all `i` on the 3601-point grid. -/
def FySynth : List CVec3 := List.replicate 3601 ⟨0, 1, 0⟩

/-- The error raised by a numpy elementwise operation on two 1-D arrays
whose lengths can not be broadcast together. -/
inductive NpError where
  | broadcastMismatch

/-- The numpy elementwise binary operation on two 1-D arrays, with numpy's
broadcasting rule: equal lengths combine elementwise, a length-1 array is
broadcast against the other operand, and any other length combination
raises a broadcast error. -/
def npBinop (f : ℂ → ℂ → ℂ) (xs ys : List ℂ) : Except NpError (List ℂ) :=
  if xs.length = ys.length then Except.ok (List.zipWith f xs ys)
  else if xs.length = 1 then Except.ok (ys.map (fun b => f xs.headI b))
  else if ys.length = 1 then Except.ok (xs.map (fun a => f a ys.headI))
  else Except.error NpError.broadcastMismatch

/-- The amplitude-builder cell of the notebook with the numpy elementwise
operations given their full (broadcasting, possibly failing) semantics:
the four source lines evaluated in order, each binary array operation
through `npBinop`.  There is no validation step of any kind before or
between the four lines. -/
def amplitudeMatrixNp (k : ℂ) (ts : List ℝ) (Fz Fy : List CVec3) :
    Except NpError (List ℂ × List ℂ × List ℂ × List ℂ) :=
  Except.bind (npBinop (fun a b => a * b) (vNegC (vSinC ts)) (Fz.map CVec3.x))
    (fun t1 =>
  Except.bind (npBinop (fun a b => a * b) (vCosC ts) (Fz.map CVec3.y))
    (fun t2 =>
  Except.bind (npBinop (fun a b => a + b) t1 t2) (fun t =>
  Except.bind (npBinop (fun a b => a * b) (vNegC (vSinC ts)) (Fy.map CVec3.x))
    (fun u1 =>
  Except.bind (npBinop (fun a b => a * b) (vCosC ts) (Fy.map CVec3.y))
    (fun u2 =>
  Except.bind (npBinop (fun a b => a + b) u1 u2) (fun u =>
  Except.ok (sMulC (-Complex.I * k) u, sMulC (-Complex.I * k) t,
    sMulC (-Complex.I * k) (Fy.map CVec3.z),
    sMulC (-Complex.I * k) (Fz.map CVec3.z))))))))

namespace ListOps

theorem vAddC_length (xs ys : List ℂ) :
    (vAddC xs ys).length = min xs.length ys.length := by
  simp [vAddC]

theorem vMulC_length (xs ys : List ℂ) :
    (vMulC xs ys).length = min xs.length ys.length := by
  simp [vMulC]

theorem sMulC_length (c : ℂ) (xs : List ℂ) : (sMulC c xs).length = xs.length := by
  simp [sMulC]

theorem vNegC_length (xs : List ℂ) : (vNegC xs).length = xs.length := by
  simp [vNegC]

theorem vSinC_length (ts : List ℝ) : (vSinC ts).length = ts.length := by
  simp [vSinC]

theorem vCosC_length (ts : List ℝ) : (vCosC ts).length = ts.length := by
  simp [vCosC]

theorem vAddC_getD (xs ys : List ℂ) (i : ℕ) (hx : i < xs.length)
    (hy : i < ys.length) :
    (vAddC xs ys).getD i 0 = xs.getD i 0 + ys.getD i 0 := by
  rw [List.getD_eq_getElem _ _ (by simp [vAddC]; omega),
    List.getD_eq_getElem _ _ hx, List.getD_eq_getElem _ _ hy]
  simp [vAddC]

theorem vMulC_getD (xs ys : List ℂ) (i : ℕ) (hx : i < xs.length)
    (hy : i < ys.length) :
    (vMulC xs ys).getD i 0 = xs.getD i 0 * ys.getD i 0 := by
  rw [List.getD_eq_getElem _ _ (by simp [vMulC]; omega),
    List.getD_eq_getElem _ _ hx, List.getD_eq_getElem _ _ hy]
  simp [vMulC]

theorem sMulC_getD (c : ℂ) (xs : List ℂ) (i : ℕ) (hx : i < xs.length) :
    (sMulC c xs).getD i 0 = c * xs.getD i 0 := by
  rw [List.getD_eq_getElem _ _ (by simp [sMulC]; omega),
    List.getD_eq_getElem _ _ hx]
  simp [sMulC]

theorem vNegC_getD (xs : List ℂ) (i : ℕ) (hx : i < xs.length) :
    (vNegC xs).getD i 0 = -(xs.getD i 0) := by
  rw [List.getD_eq_getElem _ _ (by simp [vNegC]; omega),
    List.getD_eq_getElem _ _ hx]
  simp [vNegC]

theorem vSinC_getD (ts : List ℝ) (i : ℕ) (ht : i < ts.length) :
    (vSinC ts).getD i 0 = (Real.sin (ts.getD i 0) : ℂ) := by
  rw [List.getD_eq_getElem _ _ (by simp [vSinC]; omega),
    List.getD_eq_getElem _ _ ht]
  simp [vSinC]

theorem vCosC_getD (ts : List ℝ) (i : ℕ) (ht : i < ts.length) :
    (vCosC ts).getD i 0 = (Real.cos (ts.getD i 0) : ℂ) := by
  rw [List.getD_eq_getElem _ _ (by simp [vCosC]; omega),
    List.getD_eq_getElem _ _ ht]
  simp [vCosC]

theorem map_getD_vec (f : CVec3 → ℂ) (F : List CVec3) (i : ℕ)
    (hF : i < F.length) :
    (F.map f).getD i 0 = f (F.getD i ⟨0, 0, 0⟩) := by
  rw [List.getD_eq_getElem _ _ (by simp; omega),
    List.getD_eq_getElem _ _ hF]
  simp

theorem A22_getD (k : ℂ) (Fz : List CVec3) (i : ℕ) (hF : i < Fz.length) :
    (A22 k Fz).getD i 0 = -Complex.I * k * (Fz.getD i ⟨0, 0, 0⟩).z := by
  rw [List.getD_eq_getElem _ _ (by simp [A22, sMulC]; omega),
    List.getD_eq_getElem _ _ hF]
  simp [A22, sMulC]

theorem A21_getD (k : ℂ) (Fy : List CVec3) (i : ℕ) (hF : i < Fy.length) :
    (A21 k Fy).getD i 0 = -Complex.I * k * (Fy.getD i ⟨0, 0, 0⟩).z := by
  rw [List.getD_eq_getElem _ _ (by simp [A21, sMulC]; omega),
    List.getD_eq_getElem _ _ hF]
  simp [A21, sMulC]

theorem A12_getD (k : ℂ) (ts : List ℝ) (Fz : List CVec3) (i : ℕ)
    (ht : i < ts.length) (hF : i < Fz.length) :
    (A12 k ts Fz).getD i 0 =
      -Complex.I * k *
        (-(Real.sin (ts.getD i 0) : ℂ) * (Fz.getD i ⟨0, 0, 0⟩).x +
          (Real.cos (ts.getD i 0) : ℂ) * (Fz.getD i ⟨0, 0, 0⟩).y) := by
  rw [List.getD_eq_getElem _ _
      (by simp [A12, sMulC, vAddC, vMulC, vNegC, vSinC, vCosC]; omega),
    List.getD_eq_getElem _ _ ht, List.getD_eq_getElem _ _ hF]
  simp [A12, sMulC, vAddC, vMulC, vNegC, vSinC, vCosC]

theorem A11_getD (k : ℂ) (ts : List ℝ) (Fy : List CVec3) (i : ℕ)
    (ht : i < ts.length) (hF : i < Fy.length) :
    (A11 k ts Fy).getD i 0 =
      -Complex.I * k *
        (-(Real.sin (ts.getD i 0) : ℂ) * (Fy.getD i ⟨0, 0, 0⟩).x +
          (Real.cos (ts.getD i 0) : ℂ) * (Fy.getD i ⟨0, 0, 0⟩).y) := by
  rw [List.getD_eq_getElem _ _
      (by simp [A11, sMulC, vAddC, vMulC, vNegC, vSinC, vCosC]; omega),
    List.getD_eq_getElem _ _ ht, List.getD_eq_getElem _ _ hF]
  simp [A11, sMulC, vAddC, vMulC, vNegC, vSinC, vCosC]

theorem S11_getD (a11 a12 a21 a22 : List ℂ) (i : ℕ) (h1 : i < a11.length)
    (h2 : i < a12.length) (h3 : i < a21.length) (h4 : i < a22.length) :
    (S11 a11 a12 a21 a22).getD i 0 =
      1 / 2 * (Complex.abs (a11.getD i 0) ^ 2 + Complex.abs (a22.getD i 0) ^ 2 + Complex.abs (a21.getD i 0) ^ 2 + Complex.abs (a12.getD i 0) ^ 2) := by
  rw [List.getD_eq_getElem _ _ (by simp [S11, sMulR, vAddR, vSubR, vPow2, vAbs]; omega),
    List.getD_eq_getElem _ _ h1, List.getD_eq_getElem _ _ h2,
    List.getD_eq_getElem _ _ h3, List.getD_eq_getElem _ _ h4]
  simp [S11, sMulR, vAddR, vSubR, vPow2, vAbs]

theorem S12_getD (a11 a12 a21 a22 : List ℂ) (i : ℕ) (h1 : i < a11.length)
    (h2 : i < a12.length) (h3 : i < a21.length) (h4 : i < a22.length) :
    (S12 a11 a12 a21 a22).getD i 0 =
      1 / 2 * (Complex.abs (a11.getD i 0) ^ 2 - Complex.abs (a22.getD i 0) ^ 2 + Complex.abs (a21.getD i 0) ^ 2 - Complex.abs (a12.getD i 0) ^ 2) := by
  rw [List.getD_eq_getElem _ _ (by simp [S12, sMulR, vAddR, vSubR, vPow2, vAbs]; omega),
    List.getD_eq_getElem _ _ h1, List.getD_eq_getElem _ _ h2,
    List.getD_eq_getElem _ _ h3, List.getD_eq_getElem _ _ h4]
  simp [S12, sMulR, vAddR, vSubR, vPow2, vAbs]

theorem S13_getD (a11 a12 a21 a22 : List ℂ) (i : ℕ) (h1 : i < a11.length)
    (h2 : i < a12.length) (h3 : i < a21.length) (h4 : i < a22.length) :
    (S13 a11 a12 a21 a22).getD i 0 =
      ((a11.getD i 0 * (starRingEnd ℂ) (a12.getD i 0) + (a22.getD i 0) * (starRingEnd ℂ) (a21.getD i 0))).re := by
  rw [List.getD_eq_getElem _ _ (by simp [S13, vRe, vAddC, vMulC, vConj]; omega),
    List.getD_eq_getElem _ _ h1, List.getD_eq_getElem _ _ h2,
    List.getD_eq_getElem _ _ h3, List.getD_eq_getElem _ _ h4]
  simp [S13, vRe, vAddC, vMulC, vConj]

theorem S14_getD (a11 a12 a21 a22 : List ℂ) (i : ℕ) (h1 : i < a11.length)
    (h2 : i < a12.length) (h3 : i < a21.length) (h4 : i < a22.length) :
    (S14 a11 a12 a21 a22).getD i 0 =
      ((a11.getD i 0 * (starRingEnd ℂ) (a12.getD i 0) - (a22.getD i 0) * (starRingEnd ℂ) (a21.getD i 0))).im := by
  rw [List.getD_eq_getElem _ _ (by simp [S14, vIm, vSubC, vMulC, vConj]; omega),
    List.getD_eq_getElem _ _ h1, List.getD_eq_getElem _ _ h2,
    List.getD_eq_getElem _ _ h3, List.getD_eq_getElem _ _ h4]
  simp [S14, vIm, vSubC, vMulC, vConj]

theorem S21_getD (a11 a12 a21 a22 : List ℂ) (i : ℕ) (h1 : i < a11.length)
    (h2 : i < a12.length) (h3 : i < a21.length) (h4 : i < a22.length) :
    (S21 a11 a12 a21 a22).getD i 0 =
      1 / 2 * (Complex.abs (a11.getD i 0) ^ 2 - Complex.abs (a22.getD i 0) ^ 2 - Complex.abs (a21.getD i 0) ^ 2 + Complex.abs (a12.getD i 0) ^ 2) := by
  rw [List.getD_eq_getElem _ _ (by simp [S21, sMulR, vAddR, vSubR, vPow2, vAbs]; omega),
    List.getD_eq_getElem _ _ h1, List.getD_eq_getElem _ _ h2,
    List.getD_eq_getElem _ _ h3, List.getD_eq_getElem _ _ h4]
  simp [S21, sMulR, vAddR, vSubR, vPow2, vAbs]

theorem S22_getD (a11 a12 a21 a22 : List ℂ) (i : ℕ) (h1 : i < a11.length)
    (h2 : i < a12.length) (h3 : i < a21.length) (h4 : i < a22.length) :
    (S22 a11 a12 a21 a22).getD i 0 =
      1 / 2 * (Complex.abs (a11.getD i 0) ^ 2 + Complex.abs (a22.getD i 0) ^ 2 - Complex.abs (a21.getD i 0) ^ 2 - Complex.abs (a12.getD i 0) ^ 2) := by
  rw [List.getD_eq_getElem _ _ (by simp [S22, sMulR, vAddR, vSubR, vPow2, vAbs]; omega),
    List.getD_eq_getElem _ _ h1, List.getD_eq_getElem _ _ h2,
    List.getD_eq_getElem _ _ h3, List.getD_eq_getElem _ _ h4]
  simp [S22, sMulR, vAddR, vSubR, vPow2, vAbs]

theorem S23_getD (a11 a12 a21 a22 : List ℂ) (i : ℕ) (h1 : i < a11.length)
    (h2 : i < a12.length) (h3 : i < a21.length) (h4 : i < a22.length) :
    (S23 a11 a12 a21 a22).getD i 0 =
      ((a11.getD i 0 * (starRingEnd ℂ) (a12.getD i 0) - (a22.getD i 0) * (starRingEnd ℂ) (a21.getD i 0))).re := by
  rw [List.getD_eq_getElem _ _ (by simp [S23, vRe, vSubC, vMulC, vConj]; omega),
    List.getD_eq_getElem _ _ h1, List.getD_eq_getElem _ _ h2,
    List.getD_eq_getElem _ _ h3, List.getD_eq_getElem _ _ h4]
  simp [S23, vRe, vSubC, vMulC, vConj]

theorem S24_getD (a11 a12 a21 a22 : List ℂ) (i : ℕ) (h1 : i < a11.length)
    (h2 : i < a12.length) (h3 : i < a21.length) (h4 : i < a22.length) :
    (S24 a11 a12 a21 a22).getD i 0 =
      ((a11.getD i 0 * (starRingEnd ℂ) (a12.getD i 0) + (a22.getD i 0) * (starRingEnd ℂ) (a21.getD i 0))).im := by
  rw [List.getD_eq_getElem _ _ (by simp [S24, vIm, vAddC, vMulC, vConj]; omega),
    List.getD_eq_getElem _ _ h1, List.getD_eq_getElem _ _ h2,
    List.getD_eq_getElem _ _ h3, List.getD_eq_getElem _ _ h4]
  simp [S24, vIm, vAddC, vMulC, vConj]

theorem S31_getD (a11 a12 a21 a22 : List ℂ) (i : ℕ) (h1 : i < a11.length)
    (h2 : i < a12.length) (h3 : i < a21.length) (h4 : i < a22.length) :
    (S31 a11 a12 a21 a22).getD i 0 =
      ((a11.getD i 0 * (starRingEnd ℂ) (a21.getD i 0) + (a22.getD i 0) * (starRingEnd ℂ) (a12.getD i 0))).re := by
  rw [List.getD_eq_getElem _ _ (by simp [S31, vRe, vAddC, vMulC, vConj]; omega),
    List.getD_eq_getElem _ _ h1, List.getD_eq_getElem _ _ h2,
    List.getD_eq_getElem _ _ h3, List.getD_eq_getElem _ _ h4]
  simp [S31, vRe, vAddC, vMulC, vConj]

theorem S32_getD (a11 a12 a21 a22 : List ℂ) (i : ℕ) (h1 : i < a11.length)
    (h2 : i < a12.length) (h3 : i < a21.length) (h4 : i < a22.length) :
    (S32 a11 a12 a21 a22).getD i 0 =
      ((a11.getD i 0 * (starRingEnd ℂ) (a21.getD i 0) - (a22.getD i 0) * (starRingEnd ℂ) (a12.getD i 0))).re := by
  rw [List.getD_eq_getElem _ _ (by simp [S32, vRe, vSubC, vMulC, vConj]; omega),
    List.getD_eq_getElem _ _ h1, List.getD_eq_getElem _ _ h2,
    List.getD_eq_getElem _ _ h3, List.getD_eq_getElem _ _ h4]
  simp [S32, vRe, vSubC, vMulC, vConj]

theorem S33_getD (a11 a12 a21 a22 : List ℂ) (i : ℕ) (h1 : i < a11.length)
    (h2 : i < a12.length) (h3 : i < a21.length) (h4 : i < a22.length) :
    (S33 a11 a12 a21 a22).getD i 0 =
      (((starRingEnd ℂ) (a11.getD i 0) * (a22.getD i 0) + (a12.getD i 0) * (starRingEnd ℂ) (a21.getD i 0))).re := by
  rw [List.getD_eq_getElem _ _ (by simp [S33, vRe, vAddC, vMulC, vConj]; omega),
    List.getD_eq_getElem _ _ h1, List.getD_eq_getElem _ _ h2,
    List.getD_eq_getElem _ _ h3, List.getD_eq_getElem _ _ h4]
  simp [S33, vRe, vAddC, vMulC, vConj]

theorem S34_getD (a11 a12 a21 a22 : List ℂ) (i : ℕ) (h1 : i < a11.length)
    (h2 : i < a12.length) (h3 : i < a21.length) (h4 : i < a22.length) :
    (S34 a11 a12 a21 a22).getD i 0 =
      ((a11.getD i 0 * (starRingEnd ℂ) (a22.getD i 0) + (a21.getD i 0) * (starRingEnd ℂ) (a12.getD i 0))).im := by
  rw [List.getD_eq_getElem _ _ (by simp [S34, vIm, vAddC, vMulC, vConj]; omega),
    List.getD_eq_getElem _ _ h1, List.getD_eq_getElem _ _ h2,
    List.getD_eq_getElem _ _ h3, List.getD_eq_getElem _ _ h4]
  simp [S34, vIm, vAddC, vMulC, vConj]

theorem S41_getD (a11 a12 a21 a22 : List ℂ) (i : ℕ) (h1 : i < a11.length)
    (h2 : i < a12.length) (h3 : i < a21.length) (h4 : i < a22.length) :
    (S41 a11 a12 a21 a22).getD i 0 =
      (((starRingEnd ℂ) (a11.getD i 0) * (a21.getD i 0) + (starRingEnd ℂ) (a12.getD i 0) * (a22.getD i 0))).im := by
  rw [List.getD_eq_getElem _ _ (by simp [S41, vIm, vAddC, vMulC, vConj]; omega),
    List.getD_eq_getElem _ _ h1, List.getD_eq_getElem _ _ h2,
    List.getD_eq_getElem _ _ h3, List.getD_eq_getElem _ _ h4]
  simp [S41, vIm, vAddC, vMulC, vConj]

theorem S42_getD (a11 a12 a21 a22 : List ℂ) (i : ℕ) (h1 : i < a11.length)
    (h2 : i < a12.length) (h3 : i < a21.length) (h4 : i < a22.length) :
    (S42 a11 a12 a21 a22).getD i 0 =
      (((starRingEnd ℂ) (a11.getD i 0) * (a21.getD i 0) - (starRingEnd ℂ) (a12.getD i 0) * (a22.getD i 0))).im := by
  rw [List.getD_eq_getElem _ _ (by simp [S42, vIm, vSubC, vMulC, vConj]; omega),
    List.getD_eq_getElem _ _ h1, List.getD_eq_getElem _ _ h2,
    List.getD_eq_getElem _ _ h3, List.getD_eq_getElem _ _ h4]
  simp [S42, vIm, vSubC, vMulC, vConj]

theorem S43_getD (a11 a12 a21 a22 : List ℂ) (i : ℕ) (h1 : i < a11.length)
    (h2 : i < a12.length) (h3 : i < a21.length) (h4 : i < a22.length) :
    (S43 a11 a12 a21 a22).getD i 0 =
      (((a22.getD i 0) * (starRingEnd ℂ) (a11.getD i 0) - (a12.getD i 0) * (starRingEnd ℂ) (a21.getD i 0))).im := by
  rw [List.getD_eq_getElem _ _ (by simp [S43, vIm, vSubC, vMulC, vConj]; omega),
    List.getD_eq_getElem _ _ h1, List.getD_eq_getElem _ _ h2,
    List.getD_eq_getElem _ _ h3, List.getD_eq_getElem _ _ h4]
  simp [S43, vIm, vSubC, vMulC, vConj]

theorem S44_getD (a11 a12 a21 a22 : List ℂ) (i : ℕ) (h1 : i < a11.length)
    (h2 : i < a12.length) (h3 : i < a21.length) (h4 : i < a22.length) :
    (S44 a11 a12 a21 a22).getD i 0 =
      (((starRingEnd ℂ) (a11.getD i 0) * (a22.getD i 0) - (a12.getD i 0) * (starRingEnd ℂ) (a21.getD i 0))).re := by
  rw [List.getD_eq_getElem _ _ (by simp [S44, vRe, vAddC, vSubC, vMulC, vConj]; omega),
    List.getD_eq_getElem _ _ h1, List.getD_eq_getElem _ _ h2,
    List.getD_eq_getElem _ _ h3, List.getD_eq_getElem _ _ h4]
  simp [S44, vRe, vAddC, vSubC, vMulC, vConj]

theorem A22_length (k : ℂ) (Fz : List CVec3) : (A22 k Fz).length = Fz.length := by
  simp [A22, sMulC]

theorem A21_length (k : ℂ) (Fy : List CVec3) : (A21 k Fy).length = Fy.length := by
  simp [A21, sMulC]

theorem A12_length (k : ℂ) (ts : List ℝ) (Fz : List CVec3) :
    (A12 k ts Fz).length = min ts.length Fz.length := by
  simp [A12, sMulC, vAddC, vMulC, vNegC, vSinC, vCosC]

theorem A11_length (k : ℂ) (ts : List ℝ) (Fy : List CVec3) :
    (A11 k ts Fy).length = min ts.length Fy.length := by
  simp [A11, sMulC, vAddC, vMulC, vNegC, vSinC, vCosC]

theorem thetaList_length : thetaList.length = 3601 := by
  simp [thetaList]

theorem thetaList_getD (i : ℕ) (hi : i < 3601) : thetaList.getD i 0 = theta i := by
  rw [List.getD_eq_getElem _ _ (by simp [thetaList]; omega)]
  simp [thetaList]

theorem replicate_getD_vec (v : CVec3) (n i : ℕ) (hi : i < n) :
    (List.replicate n v).getD i ⟨0, 0, 0⟩ = v := by
  rw [List.getD_eq_getElem _ _ (by simp; omega)]
  simp

theorem FzSynth_length : FzSynth.length = 3601 := by
  unfold FzSynth
  exact List.length_replicate 3601 _

theorem FySynth_length : FySynth.length = 3601 := by
  unfold FySynth
  exact List.length_replicate 3601 _

theorem pointsList_length : pointsList.length = 3601 := by
  simp [pointsList, thetaList]

theorem pointsList_getD (i : ℕ) (hi : i < 3601) :
    pointsList.getD i (0, 0, 0) =
      (Real.cos (theta i), Real.sin (theta i), 0) := by
  rw [List.getD_eq_getElem _ _ (by simp [pointsList, thetaList]; omega)]
  simp [pointsList, thetaList]

theorem npBinop_ok_of_eq (f : ℂ → ℂ → ℂ) (xs ys : List ℂ)
    (h : xs.length = ys.length) :
    npBinop f xs ys = Except.ok (List.zipWith f xs ys) := by
  unfold npBinop
  rw [if_pos h]

theorem npBinop_ok_left (f : ℂ → ℂ → ℂ) (xs ys : List ℂ)
    (hne : xs.length ≠ ys.length) (h : xs.length = 1) :
    npBinop f xs ys = Except.ok (ys.map (fun b => f xs.headI b)) := by
  unfold npBinop
  rw [if_neg hne, if_pos h]

theorem npBinop_ok_right (f : ℂ → ℂ → ℂ) (xs ys : List ℂ)
    (hne : xs.length ≠ ys.length) (hx : xs.length ≠ 1) (hy : ys.length = 1) :
    npBinop f xs ys = Except.ok (xs.map (fun a => f a ys.headI)) := by
  unfold npBinop
  rw [if_neg hne, if_neg hx, if_pos hy]

theorem npBinop_error (f : ℂ → ℂ → ℂ) (xs ys : List ℂ)
    (hne : xs.length ≠ ys.length) (hx : xs.length ≠ 1) (hy : ys.length ≠ 1) :
    npBinop f xs ys = Except.error NpError.broadcastMismatch := by
  unfold npBinop
  rw [if_neg hne, if_neg hx, if_neg hy]

end ListOps

/-- C1: for every wavenumber `k`, angle sequence `ts` and far-field sequences
`Fz`, `Fy` of equal length `N`, the Amplitude Scattering Matrix Builder
computes, at every index `i`: `A22[i] = -i*k*Fz[i].z`,
`A12[i] = -i*k*(-sin(theta_i)*Fz[i].x + cos(theta_i)*Fz[i].y)`,
`A11[i] = -i*k*(-sin(theta_i)*Fy[i].x + cos(theta_i)*Fy[i].y)`,
`A21[i] = -i*k*Fy[i].z`. -/
theorem C1_amplitude_builder_entries (k : ℂ) (ts : List ℝ) (Fz Fy : List CVec3)
    (N : ℕ) (hts : ts.length = N) (hFz : Fz.length = N) (hFy : Fy.length = N)
    (i : ℕ) (hi : i < N) :
    (A22 k Fz).getD i 0 = -Complex.I * k * (Fz.getD i ⟨0, 0, 0⟩).z ∧
    (A12 k ts Fz).getD i 0 =
      -Complex.I * k *
        (-(Real.sin (ts.getD i 0) : ℂ) * (Fz.getD i ⟨0, 0, 0⟩).x +
          (Real.cos (ts.getD i 0) : ℂ) * (Fz.getD i ⟨0, 0, 0⟩).y) ∧
    (A11 k ts Fy).getD i 0 =
      -Complex.I * k *
        (-(Real.sin (ts.getD i 0) : ℂ) * (Fy.getD i ⟨0, 0, 0⟩).x +
          (Real.cos (ts.getD i 0) : ℂ) * (Fy.getD i ⟨0, 0, 0⟩).y) ∧
    (A21 k Fy).getD i 0 = -Complex.I * k * (Fy.getD i ⟨0, 0, 0⟩).z :=
  ⟨ListOps.A22_getD k Fz i (by omega),
   ListOps.A12_getD k ts Fz i (by omega) (by omega),
   ListOps.A11_getD k ts Fy i (by omega) (by omega),
   ListOps.A21_getD k Fy i (by omega)⟩

/-- Witness for C1 at `k = 2`, one angle `0`, `Fz = [(1,2,3)]`, `Fy = [(4,5,6)]`,
index `0`. -/
theorem C1_amplitude_builder_entries_witness :
    ([(0 : ℝ)].length = 1 ∧ (0 : ℕ) < 1) ∧
    ((A22 2 [⟨1, 2, 3⟩]).getD 0 0 =
        -Complex.I * 2 * (([⟨1, 2, 3⟩] : List CVec3).getD 0 ⟨0, 0, 0⟩).z ∧
      (A12 2 [(0 : ℝ)] [⟨1, 2, 3⟩]).getD 0 0 =
        -Complex.I * 2 *
          (-(Real.sin (([(0 : ℝ)]).getD 0 0) : ℂ) *
              (([⟨1, 2, 3⟩] : List CVec3).getD 0 ⟨0, 0, 0⟩).x +
            (Real.cos (([(0 : ℝ)]).getD 0 0) : ℂ) *
              (([⟨1, 2, 3⟩] : List CVec3).getD 0 ⟨0, 0, 0⟩).y) ∧
      (A11 2 [(0 : ℝ)] [⟨4, 5, 6⟩]).getD 0 0 =
        -Complex.I * 2 *
          (-(Real.sin (([(0 : ℝ)]).getD 0 0) : ℂ) *
              (([⟨4, 5, 6⟩] : List CVec3).getD 0 ⟨0, 0, 0⟩).x +
            (Real.cos (([(0 : ℝ)]).getD 0 0) : ℂ) *
              (([⟨4, 5, 6⟩] : List CVec3).getD 0 ⟨0, 0, 0⟩).y) ∧
      (A21 2 [⟨4, 5, 6⟩]).getD 0 0 =
        -Complex.I * 2 * (([⟨4, 5, 6⟩] : List CVec3).getD 0 ⟨0, 0, 0⟩).z) :=
  ⟨⟨rfl, by norm_num⟩,
    C1_amplitude_builder_entries 2 [0] [⟨1, 2, 3⟩] [⟨4, 5, 6⟩] 1 rfl rfl rfl 0
      (by norm_num)⟩

/-- C8: the Amplitude Scattering Matrix Builder is deterministic and
stateless: two runs on identical inputs produce identical outputs (the
embedding is a pure function of `k`, `ts`, `Fz`, `Fy`; the inputs, being
immutable values, are left unchanged). -/
theorem C8_amplitude_builder_deterministic (k1 k2 : ℂ) (ts1 ts2 : List ℝ)
    (Fz1 Fz2 Fy1 Fy2 : List CVec3) (hk : k1 = k2) (ht : ts1 = ts2)
    (hz : Fz1 = Fz2) (hy : Fy1 = Fy2) :
    amplitudeMatrix k1 ts1 Fz1 Fy1 = amplitudeMatrix k2 ts2 Fz2 Fy2 := by
  rw [hk, ht, hz, hy]

/-- Witness for C8: two textually separate runs at the same concrete input. -/
theorem C8_amplitude_builder_deterministic_witness :
    ((5 : ℂ) = 5 ∧ [(0 : ℝ)] = [(0 : ℝ)]) ∧
    amplitudeMatrix 5 [0] [⟨1, 2, 3⟩] [⟨4, 5, 6⟩] =
      amplitudeMatrix 5 [0] [⟨1, 2, 3⟩] [⟨4, 5, 6⟩] :=
  ⟨⟨rfl, rfl⟩,
    C8_amplitude_builder_deterministic 5 5 [0] [0] [⟨1, 2, 3⟩] [⟨1, 2, 3⟩]
      [⟨4, 5, 6⟩] [⟨4, 5, 6⟩] rfl rfl rfl rfl⟩

/-- C10: the two polarizations do not interfere: in the bundled builder
output `(A11, A12, A21, A22)`, the `A22` and `A12` components are unchanged
under an arbitrary change of `Fy`, and the `A11` and `A21` components are
unchanged under an arbitrary change of `Fz`. -/
theorem C10_polarizations_independent (k : ℂ) (ts : List ℝ)
    (Fz Fz2 Fy Fy2 : List CVec3) :
    (amplitudeMatrix k ts Fz Fy).2.2.2 = (amplitudeMatrix k ts Fz Fy2).2.2.2 ∧
    (amplitudeMatrix k ts Fz Fy).2.1 = (amplitudeMatrix k ts Fz Fy2).2.1 ∧
    (amplitudeMatrix k ts Fz Fy).1 = (amplitudeMatrix k ts Fz2 Fy).1 ∧
    (amplitudeMatrix k ts Fz Fy).2.2.1 = (amplitudeMatrix k ts Fz2 Fy).2.2.1 :=
  ⟨rfl, rfl, rfl, rfl⟩

/-- C2: for every four complex input sequences `a11, a12, a21, a22` of equal
length `N`, the Phase (Mueller) Scattering Matrix Builder computes,
independently at every index `i`, the sixteen real entries `S11 .. S44`
exactly by the sixteen formulas of the specification (each entry at index
`i` a function of the four amplitude values at the same index only). -/
theorem C2_phase_builder_entries (a11 a12 a21 a22 : List ℂ) (N : ℕ)
    (h11 : a11.length = N) (h12 : a12.length = N) (h21 : a21.length = N)
    (h22 : a22.length = N) (i : ℕ) (hi : i < N) :
    (S11 a11 a12 a21 a22).getD i 0 =
      1 / 2 * (Complex.abs (a11.getD i 0) ^ 2 + Complex.abs (a22.getD i 0) ^ 2 + Complex.abs (a21.getD i 0) ^ 2 + Complex.abs (a12.getD i 0) ^ 2) ∧
    (S12 a11 a12 a21 a22).getD i 0 =
      1 / 2 * (Complex.abs (a11.getD i 0) ^ 2 - Complex.abs (a22.getD i 0) ^ 2 + Complex.abs (a21.getD i 0) ^ 2 - Complex.abs (a12.getD i 0) ^ 2) ∧
    (S13 a11 a12 a21 a22).getD i 0 =
      ((a11.getD i 0 * (starRingEnd ℂ) (a12.getD i 0) + (a22.getD i 0) * (starRingEnd ℂ) (a21.getD i 0))).re ∧
    (S14 a11 a12 a21 a22).getD i 0 =
      ((a11.getD i 0 * (starRingEnd ℂ) (a12.getD i 0) - (a22.getD i 0) * (starRingEnd ℂ) (a21.getD i 0))).im ∧
    (S21 a11 a12 a21 a22).getD i 0 =
      1 / 2 * (Complex.abs (a11.getD i 0) ^ 2 - Complex.abs (a22.getD i 0) ^ 2 - Complex.abs (a21.getD i 0) ^ 2 + Complex.abs (a12.getD i 0) ^ 2) ∧
    (S22 a11 a12 a21 a22).getD i 0 =
      1 / 2 * (Complex.abs (a11.getD i 0) ^ 2 + Complex.abs (a22.getD i 0) ^ 2 - Complex.abs (a21.getD i 0) ^ 2 - Complex.abs (a12.getD i 0) ^ 2) ∧
    (S23 a11 a12 a21 a22).getD i 0 =
      ((a11.getD i 0 * (starRingEnd ℂ) (a12.getD i 0) - (a22.getD i 0) * (starRingEnd ℂ) (a21.getD i 0))).re ∧
    (S24 a11 a12 a21 a22).getD i 0 =
      ((a11.getD i 0 * (starRingEnd ℂ) (a12.getD i 0) + (a22.getD i 0) * (starRingEnd ℂ) (a21.getD i 0))).im ∧
    (S31 a11 a12 a21 a22).getD i 0 =
      ((a11.getD i 0 * (starRingEnd ℂ) (a21.getD i 0) + (a22.getD i 0) * (starRingEnd ℂ) (a12.getD i 0))).re ∧
    (S32 a11 a12 a21 a22).getD i 0 =
      ((a11.getD i 0 * (starRingEnd ℂ) (a21.getD i 0) - (a22.getD i 0) * (starRingEnd ℂ) (a12.getD i 0))).re ∧
    (S33 a11 a12 a21 a22).getD i 0 =
      (((starRingEnd ℂ) (a11.getD i 0) * (a22.getD i 0) + (a12.getD i 0) * (starRingEnd ℂ) (a21.getD i 0))).re ∧
    (S34 a11 a12 a21 a22).getD i 0 =
      ((a11.getD i 0 * (starRingEnd ℂ) (a22.getD i 0) + (a21.getD i 0) * (starRingEnd ℂ) (a12.getD i 0))).im ∧
    (S41 a11 a12 a21 a22).getD i 0 =
      (((starRingEnd ℂ) (a11.getD i 0) * (a21.getD i 0) + (starRingEnd ℂ) (a12.getD i 0) * (a22.getD i 0))).im ∧
    (S42 a11 a12 a21 a22).getD i 0 =
      (((starRingEnd ℂ) (a11.getD i 0) * (a21.getD i 0) - (starRingEnd ℂ) (a12.getD i 0) * (a22.getD i 0))).im ∧
    (S43 a11 a12 a21 a22).getD i 0 =
      (((a22.getD i 0) * (starRingEnd ℂ) (a11.getD i 0) - (a12.getD i 0) * (starRingEnd ℂ) (a21.getD i 0))).im ∧
    (S44 a11 a12 a21 a22).getD i 0 =
      (((starRingEnd ℂ) (a11.getD i 0) * (a22.getD i 0) - (a12.getD i 0) * (starRingEnd ℂ) (a21.getD i 0))).re :=
  ⟨ListOps.S11_getD a11 a12 a21 a22 i (by omega) (by omega) (by omega) (by omega),
   ListOps.S12_getD a11 a12 a21 a22 i (by omega) (by omega) (by omega) (by omega),
   ListOps.S13_getD a11 a12 a21 a22 i (by omega) (by omega) (by omega) (by omega),
   ListOps.S14_getD a11 a12 a21 a22 i (by omega) (by omega) (by omega) (by omega),
   ListOps.S21_getD a11 a12 a21 a22 i (by omega) (by omega) (by omega) (by omega),
   ListOps.S22_getD a11 a12 a21 a22 i (by omega) (by omega) (by omega) (by omega),
   ListOps.S23_getD a11 a12 a21 a22 i (by omega) (by omega) (by omega) (by omega),
   ListOps.S24_getD a11 a12 a21 a22 i (by omega) (by omega) (by omega) (by omega),
   ListOps.S31_getD a11 a12 a21 a22 i (by omega) (by omega) (by omega) (by omega),
   ListOps.S32_getD a11 a12 a21 a22 i (by omega) (by omega) (by omega) (by omega),
   ListOps.S33_getD a11 a12 a21 a22 i (by omega) (by omega) (by omega) (by omega),
   ListOps.S34_getD a11 a12 a21 a22 i (by omega) (by omega) (by omega) (by omega),
   ListOps.S41_getD a11 a12 a21 a22 i (by omega) (by omega) (by omega) (by omega),
   ListOps.S42_getD a11 a12 a21 a22 i (by omega) (by omega) (by omega) (by omega),
   ListOps.S43_getD a11 a12 a21 a22 i (by omega) (by omega) (by omega) (by omega),
   ListOps.S44_getD a11 a12 a21 a22 i (by omega) (by omega) (by omega) (by omega)⟩

/-- Witness for C2 at `a11 = [2]`, `a12 = [0]`, `a21 = [0]`, `a22 = [I]`,
index `0`. -/
theorem C2_phase_builder_entries_witness :
    (([(2 : ℂ)] : List ℂ).length = 1 ∧ (0 : ℕ) < 1) ∧
    ((S11 [2] [0] [0] [Complex.I]).getD 0 0 =
      1 / 2 * (Complex.abs (([(2 : ℂ)] : List ℂ).getD 0 0) ^ 2 + Complex.abs (([Complex.I] : List ℂ).getD 0 0) ^ 2 + Complex.abs (([(0 : ℂ)] : List ℂ).getD 0 0) ^ 2 + Complex.abs (([(0 : ℂ)] : List ℂ).getD 0 0) ^ 2) ∧
    (S12 [2] [0] [0] [Complex.I]).getD 0 0 =
      1 / 2 * (Complex.abs (([(2 : ℂ)] : List ℂ).getD 0 0) ^ 2 - Complex.abs (([Complex.I] : List ℂ).getD 0 0) ^ 2 + Complex.abs (([(0 : ℂ)] : List ℂ).getD 0 0) ^ 2 - Complex.abs (([(0 : ℂ)] : List ℂ).getD 0 0) ^ 2) ∧
    (S13 [2] [0] [0] [Complex.I]).getD 0 0 =
      ((([(2 : ℂ)] : List ℂ).getD 0 0 * (starRingEnd ℂ) (([(0 : ℂ)] : List ℂ).getD 0 0) + (([Complex.I] : List ℂ).getD 0 0) * (starRingEnd ℂ) (([(0 : ℂ)] : List ℂ).getD 0 0))).re ∧
    (S14 [2] [0] [0] [Complex.I]).getD 0 0 =
      ((([(2 : ℂ)] : List ℂ).getD 0 0 * (starRingEnd ℂ) (([(0 : ℂ)] : List ℂ).getD 0 0) - (([Complex.I] : List ℂ).getD 0 0) * (starRingEnd ℂ) (([(0 : ℂ)] : List ℂ).getD 0 0))).im ∧
    (S21 [2] [0] [0] [Complex.I]).getD 0 0 =
      1 / 2 * (Complex.abs (([(2 : ℂ)] : List ℂ).getD 0 0) ^ 2 - Complex.abs (([Complex.I] : List ℂ).getD 0 0) ^ 2 - Complex.abs (([(0 : ℂ)] : List ℂ).getD 0 0) ^ 2 + Complex.abs (([(0 : ℂ)] : List ℂ).getD 0 0) ^ 2) ∧
    (S22 [2] [0] [0] [Complex.I]).getD 0 0 =
      1 / 2 * (Complex.abs (([(2 : ℂ)] : List ℂ).getD 0 0) ^ 2 + Complex.abs (([Complex.I] : List ℂ).getD 0 0) ^ 2 - Complex.abs (([(0 : ℂ)] : List ℂ).getD 0 0) ^ 2 - Complex.abs (([(0 : ℂ)] : List ℂ).getD 0 0) ^ 2) ∧
    (S23 [2] [0] [0] [Complex.I]).getD 0 0 =
      ((([(2 : ℂ)] : List ℂ).getD 0 0 * (starRingEnd ℂ) (([(0 : ℂ)] : List ℂ).getD 0 0) - (([Complex.I] : List ℂ).getD 0 0) * (starRingEnd ℂ) (([(0 : ℂ)] : List ℂ).getD 0 0))).re ∧
    (S24 [2] [0] [0] [Complex.I]).getD 0 0 =
      ((([(2 : ℂ)] : List ℂ).getD 0 0 * (starRingEnd ℂ) (([(0 : ℂ)] : List ℂ).getD 0 0) + (([Complex.I] : List ℂ).getD 0 0) * (starRingEnd ℂ) (([(0 : ℂ)] : List ℂ).getD 0 0))).im ∧
    (S31 [2] [0] [0] [Complex.I]).getD 0 0 =
      ((([(2 : ℂ)] : List ℂ).getD 0 0 * (starRingEnd ℂ) (([(0 : ℂ)] : List ℂ).getD 0 0) + (([Complex.I] : List ℂ).getD 0 0) * (starRingEnd ℂ) (([(0 : ℂ)] : List ℂ).getD 0 0))).re ∧
    (S32 [2] [0] [0] [Complex.I]).getD 0 0 =
      ((([(2 : ℂ)] : List ℂ).getD 0 0 * (starRingEnd ℂ) (([(0 : ℂ)] : List ℂ).getD 0 0) - (([Complex.I] : List ℂ).getD 0 0) * (starRingEnd ℂ) (([(0 : ℂ)] : List ℂ).getD 0 0))).re ∧
    (S33 [2] [0] [0] [Complex.I]).getD 0 0 =
      (((starRingEnd ℂ) (([(2 : ℂ)] : List ℂ).getD 0 0) * (([Complex.I] : List ℂ).getD 0 0) + (([(0 : ℂ)] : List ℂ).getD 0 0) * (starRingEnd ℂ) (([(0 : ℂ)] : List ℂ).getD 0 0))).re ∧
    (S34 [2] [0] [0] [Complex.I]).getD 0 0 =
      ((([(2 : ℂ)] : List ℂ).getD 0 0 * (starRingEnd ℂ) (([Complex.I] : List ℂ).getD 0 0) + (([(0 : ℂ)] : List ℂ).getD 0 0) * (starRingEnd ℂ) (([(0 : ℂ)] : List ℂ).getD 0 0))).im ∧
    (S41 [2] [0] [0] [Complex.I]).getD 0 0 =
      (((starRingEnd ℂ) (([(2 : ℂ)] : List ℂ).getD 0 0) * (([(0 : ℂ)] : List ℂ).getD 0 0) + (starRingEnd ℂ) (([(0 : ℂ)] : List ℂ).getD 0 0) * (([Complex.I] : List ℂ).getD 0 0))).im ∧
    (S42 [2] [0] [0] [Complex.I]).getD 0 0 =
      (((starRingEnd ℂ) (([(2 : ℂ)] : List ℂ).getD 0 0) * (([(0 : ℂ)] : List ℂ).getD 0 0) - (starRingEnd ℂ) (([(0 : ℂ)] : List ℂ).getD 0 0) * (([Complex.I] : List ℂ).getD 0 0))).im ∧
    (S43 [2] [0] [0] [Complex.I]).getD 0 0 =
      (((([Complex.I] : List ℂ).getD 0 0) * (starRingEnd ℂ) (([(2 : ℂ)] : List ℂ).getD 0 0) - (([(0 : ℂ)] : List ℂ).getD 0 0) * (starRingEnd ℂ) (([(0 : ℂ)] : List ℂ).getD 0 0))).im ∧
    (S44 [2] [0] [0] [Complex.I]).getD 0 0 =
      (((starRingEnd ℂ) (([(2 : ℂ)] : List ℂ).getD 0 0) * (([Complex.I] : List ℂ).getD 0 0) - (([(0 : ℂ)] : List ℂ).getD 0 0) * (starRingEnd ℂ) (([(0 : ℂ)] : List ℂ).getD 0 0))).re) :=
  ⟨⟨rfl, by norm_num⟩,
    C2_phase_builder_entries [2] [0] [0] [Complex.I] 1 rfl rfl rfl rfl 0
      (by norm_num)⟩

/-- C6: for every four complex input sequences of equal length and every
index `i`, the phase-matrix entry `S11[i]` is nonnegative. -/
theorem C6_S11_nonneg (a11 a12 a21 a22 : List ℂ) (N : ℕ)
    (h11 : a11.length = N) (h12 : a12.length = N) (h21 : a21.length = N)
    (h22 : a22.length = N) (i : ℕ) (hi : i < N) :
    0 ≤ (S11 a11 a12 a21 a22).getD i 0 := by
  rw [ListOps.S11_getD a11 a12 a21 a22 i (by omega) (by omega) (by omega)
    (by omega)]
  positivity

/-- Witness for C6 at `a11 = [2]`, `a12 = [0]`, `a21 = [0]`, `a22 = [I]`,
index `0`. -/
theorem C6_S11_nonneg_witness :
    (([(2 : ℂ)] : List ℂ).length = 1 ∧ (0 : ℕ) < 1) ∧
    0 ≤ (S11 [2] [0] [0] [Complex.I]).getD 0 0 :=
  ⟨⟨rfl, by norm_num⟩,
    C6_S11_nonneg [2] [0] [0] [Complex.I] 1 rfl rfl rfl rfl 0 (by norm_num)⟩

/-- C5: for every four complex input sequences of equal length and every
index `i`, `S11[i] ≥ |S12[i]|` and `S11[i] ≥ |S21[i]|`. -/
theorem C5_S11_dominates (a11 a12 a21 a22 : List ℂ) (N : ℕ)
    (h11 : a11.length = N) (h12 : a12.length = N) (h21 : a21.length = N)
    (h22 : a22.length = N) (i : ℕ) (hi : i < N) :
    |(S12 a11 a12 a21 a22).getD i 0| ≤ (S11 a11 a12 a21 a22).getD i 0 ∧
    |(S21 a11 a12 a21 a22).getD i 0| ≤ (S11 a11 a12 a21 a22).getD i 0 := by
  rw [ListOps.S11_getD a11 a12 a21 a22 i (by omega) (by omega) (by omega)
      (by omega),
    ListOps.S12_getD a11 a12 a21 a22 i (by omega) (by omega) (by omega)
      (by omega),
    ListOps.S21_getD a11 a12 a21 a22 i (by omega) (by omega) (by omega)
      (by omega)]
  constructor <;> rw [abs_le] <;> constructor <;>
    linarith [sq_nonneg (Complex.abs (a11.getD i 0)),
      sq_nonneg (Complex.abs (a12.getD i 0)),
      sq_nonneg (Complex.abs (a21.getD i 0)),
      sq_nonneg (Complex.abs (a22.getD i 0))]

/-- Witness for C5 at `a11 = [2]`, `a12 = [0]`, `a21 = [0]`, `a22 = [I]`,
index `0`. -/
theorem C5_S11_dominates_witness :
    (([(2 : ℂ)] : List ℂ).length = 1 ∧ (0 : ℕ) < 1) ∧
    (|(S12 [2] [0] [0] [Complex.I]).getD 0 0| ≤
        (S11 [2] [0] [0] [Complex.I]).getD 0 0 ∧
      |(S21 [2] [0] [0] [Complex.I]).getD 0 0| ≤
        (S11 [2] [0] [0] [Complex.I]).getD 0 0) :=
  ⟨⟨rfl, by norm_num⟩,
    C5_S11_dominates [2] [0] [0] [Complex.I] 1 rfl rfl rfl rfl 0 (by norm_num)⟩

set_option maxHeartbeats 1000000 in
/-- C9: the sixteen phase-matrix entries satisfy the Fry-Kattawar identity:
at every index the sum of the squares of all sixteen entries equals
`4 * S11[i] ^ 2`. -/
theorem C9_fry_kattawar (a11 a12 a21 a22 : List ℂ) (N : ℕ)
    (h11 : a11.length = N) (h12 : a12.length = N) (h21 : a21.length = N)
    (h22 : a22.length = N) (i : ℕ) (hi : i < N) :
    (S11 a11 a12 a21 a22).getD i 0 ^ 2 +
      (S12 a11 a12 a21 a22).getD i 0 ^ 2 +
      (S13 a11 a12 a21 a22).getD i 0 ^ 2 +
      (S14 a11 a12 a21 a22).getD i 0 ^ 2 +
      (S21 a11 a12 a21 a22).getD i 0 ^ 2 +
      (S22 a11 a12 a21 a22).getD i 0 ^ 2 +
      (S23 a11 a12 a21 a22).getD i 0 ^ 2 +
      (S24 a11 a12 a21 a22).getD i 0 ^ 2 +
      (S31 a11 a12 a21 a22).getD i 0 ^ 2 +
      (S32 a11 a12 a21 a22).getD i 0 ^ 2 +
      (S33 a11 a12 a21 a22).getD i 0 ^ 2 +
      (S34 a11 a12 a21 a22).getD i 0 ^ 2 +
      (S41 a11 a12 a21 a22).getD i 0 ^ 2 +
      (S42 a11 a12 a21 a22).getD i 0 ^ 2 +
      (S43 a11 a12 a21 a22).getD i 0 ^ 2 +
      (S44 a11 a12 a21 a22).getD i 0 ^ 2 =
      4 * (S11 a11 a12 a21 a22).getD i 0 ^ 2 := by
  rw [ListOps.S11_getD a11 a12 a21 a22 i (by omega) (by omega) (by omega) (by omega),
    ListOps.S12_getD a11 a12 a21 a22 i (by omega) (by omega) (by omega) (by omega),
    ListOps.S13_getD a11 a12 a21 a22 i (by omega) (by omega) (by omega) (by omega),
    ListOps.S14_getD a11 a12 a21 a22 i (by omega) (by omega) (by omega) (by omega),
    ListOps.S21_getD a11 a12 a21 a22 i (by omega) (by omega) (by omega) (by omega),
    ListOps.S22_getD a11 a12 a21 a22 i (by omega) (by omega) (by omega) (by omega),
    ListOps.S23_getD a11 a12 a21 a22 i (by omega) (by omega) (by omega) (by omega),
    ListOps.S24_getD a11 a12 a21 a22 i (by omega) (by omega) (by omega) (by omega),
    ListOps.S31_getD a11 a12 a21 a22 i (by omega) (by omega) (by omega) (by omega),
    ListOps.S32_getD a11 a12 a21 a22 i (by omega) (by omega) (by omega) (by omega),
    ListOps.S33_getD a11 a12 a21 a22 i (by omega) (by omega) (by omega) (by omega),
    ListOps.S34_getD a11 a12 a21 a22 i (by omega) (by omega) (by omega) (by omega),
    ListOps.S41_getD a11 a12 a21 a22 i (by omega) (by omega) (by omega) (by omega),
    ListOps.S42_getD a11 a12 a21 a22 i (by omega) (by omega) (by omega) (by omega),
    ListOps.S43_getD a11 a12 a21 a22 i (by omega) (by omega) (by omega) (by omega),
    ListOps.S44_getD a11 a12 a21 a22 i (by omega) (by omega) (by omega) (by omega)]
  simp only [Complex.sq_abs, Complex.normSq_apply, Complex.mul_re,
    Complex.mul_im, Complex.add_re, Complex.add_im, Complex.sub_re,
    Complex.sub_im, Complex.conj_re, Complex.conj_im]
  ring

/-- Witness for C9 at `a11 = [2]`, `a12 = [0]`, `a21 = [0]`, `a22 = [I]`,
index `0`. -/
theorem C9_fry_kattawar_witness :
    (([(2 : ℂ)] : List ℂ).length = 1 ∧ (0 : ℕ) < 1) ∧
    (S11 [2] [0] [0] [Complex.I]).getD 0 0 ^ 2 +
      (S12 [2] [0] [0] [Complex.I]).getD 0 0 ^ 2 +
      (S13 [2] [0] [0] [Complex.I]).getD 0 0 ^ 2 +
      (S14 [2] [0] [0] [Complex.I]).getD 0 0 ^ 2 +
      (S21 [2] [0] [0] [Complex.I]).getD 0 0 ^ 2 +
      (S22 [2] [0] [0] [Complex.I]).getD 0 0 ^ 2 +
      (S23 [2] [0] [0] [Complex.I]).getD 0 0 ^ 2 +
      (S24 [2] [0] [0] [Complex.I]).getD 0 0 ^ 2 +
      (S31 [2] [0] [0] [Complex.I]).getD 0 0 ^ 2 +
      (S32 [2] [0] [0] [Complex.I]).getD 0 0 ^ 2 +
      (S33 [2] [0] [0] [Complex.I]).getD 0 0 ^ 2 +
      (S34 [2] [0] [0] [Complex.I]).getD 0 0 ^ 2 +
      (S41 [2] [0] [0] [Complex.I]).getD 0 0 ^ 2 +
      (S42 [2] [0] [0] [Complex.I]).getD 0 0 ^ 2 +
      (S43 [2] [0] [0] [Complex.I]).getD 0 0 ^ 2 +
      (S44 [2] [0] [0] [Complex.I]).getD 0 0 ^ 2 =
      4 * (S11 [2] [0] [0] [Complex.I]).getD 0 0 ^ 2 :=
  ⟨⟨rfl, by norm_num⟩,
    C9_fry_kattawar [2] [0] [0] [Complex.I] 1 rfl rfl rfl rfl 0 (by norm_num)⟩

/-- C3: for the synthetic constant far fields `F_z[i] = (0,0,1)` and
`F_y[i] = (0,1,0)` with `k = kExt = 5` and `theta_i = i*2*pi/3600`, the
builders yield `A22[i] = -5i`, `A11[i] = -5i*cos(theta_i)`, `A12[i] = 0`,
`A21[i] = 0`, `S11[i] = (1/2)*(25*cos(theta_i)^2 + 25)`, and in particular
`S11 = 25` at `theta = 0` (index 0) and `S11 = 12.5` at `theta = pi/2`
(index 900). -/
theorem C3_round_trip (i : ℕ) (hi : i < 3601) :
    kExt = 5 ∧
    (A22 kExt FzSynth).getD i 0 = -5 * Complex.I ∧
    (A11 kExt thetaList FySynth).getD i 0 =
      -5 * Complex.I * (Real.cos (theta i) : ℂ) ∧
    (A12 kExt thetaList FzSynth).getD i 0 = 0 ∧
    (A21 kExt FySynth).getD i 0 = 0 ∧
    (S11 (A11 kExt thetaList FySynth) (A12 kExt thetaList FzSynth)
        (A21 kExt FySynth) (A22 kExt FzSynth)).getD i 0 =
      1 / 2 * (25 * Real.cos (theta i) ^ 2 + 25) ∧
    (S11 (A11 kExt thetaList FySynth) (A12 kExt thetaList FzSynth)
        (A21 kExt FySynth) (A22 kExt FzSynth)).getD 0 0 = 25 ∧
    (S11 (A11 kExt thetaList FySynth) (A12 kExt thetaList FzSynth)
        (A21 kExt FySynth) (A22 kExt FzSynth)).getD 900 0 = 12.5 := by
  have hz : ∀ j, j < 3601 → FzSynth.getD j ⟨0, 0, 0⟩ = ⟨0, 0, 1⟩ := fun j hj =>
    ListOps.replicate_getD_vec _ 3601 j hj
  have hy : ∀ j, j < 3601 → FySynth.getD j ⟨0, 0, 0⟩ = ⟨0, 1, 0⟩ := fun j hj =>
    ListOps.replicate_getD_vec _ 3601 j hj
  have hA22 : ∀ j, j < 3601 → (A22 kExt FzSynth).getD j 0 = -5 * Complex.I := by
    intro j hj
    rw [ListOps.A22_getD kExt FzSynth j (by rw [ListOps.FzSynth_length]; omega),
      hz j hj]
    show -Complex.I * kExt * 1 = -5 * Complex.I
    rw [show kExt = 5 from rfl]
    ring
  have hA21 : ∀ j, j < 3601 → (A21 kExt FySynth).getD j 0 = 0 := by
    intro j hj
    rw [ListOps.A21_getD kExt FySynth j (by rw [ListOps.FySynth_length]; omega),
      hy j hj]
    show -Complex.I * kExt * 0 = 0
    ring
  have hA11 : ∀ j, j < 3601 → (A11 kExt thetaList FySynth).getD j 0 =
      -5 * Complex.I * (Real.cos (theta j) : ℂ) := by
    intro j hj
    rw [ListOps.A11_getD kExt thetaList FySynth j
        (by rw [ListOps.thetaList_length]; omega)
        (by rw [ListOps.FySynth_length]; omega),
      ListOps.thetaList_getD j hj, hy j hj]
    show -Complex.I * kExt *
        (-(Real.sin (theta j) : ℂ) * 0 + (Real.cos (theta j) : ℂ) * 1) =
      -5 * Complex.I * (Real.cos (theta j) : ℂ)
    rw [show kExt = 5 from rfl]
    ring
  have hA12 : ∀ j, j < 3601 → (A12 kExt thetaList FzSynth).getD j 0 = 0 := by
    intro j hj
    rw [ListOps.A12_getD kExt thetaList FzSynth j
        (by rw [ListOps.thetaList_length]; omega)
        (by rw [ListOps.FzSynth_length]; omega),
      ListOps.thetaList_getD j hj, hz j hj]
    show -Complex.I * kExt *
        (-(Real.sin (theta j) : ℂ) * 0 + (Real.cos (theta j) : ℂ) * 0) = 0
    ring
  have hS : ∀ j, j < 3601 →
      (S11 (A11 kExt thetaList FySynth) (A12 kExt thetaList FzSynth)
          (A21 kExt FySynth) (A22 kExt FzSynth)).getD j 0 =
        1 / 2 * (25 * Real.cos (theta j) ^ 2 + 25) := by
    intro j hj
    rw [ListOps.S11_getD _ _ _ _ j
        (by rw [ListOps.A11_length, ListOps.thetaList_length,
          ListOps.FySynth_length]; omega)
        (by rw [ListOps.A12_length, ListOps.thetaList_length,
          ListOps.FzSynth_length]; omega)
        (by rw [ListOps.A21_length, ListOps.FySynth_length]; omega)
        (by rw [ListOps.A22_length, ListOps.FzSynth_length]; omega),
      hA11 j hj, hA12 j hj, hA21 j hj, hA22 j hj]
    simp only [Complex.sq_abs, Complex.normSq_mul, Complex.normSq_neg,
      Complex.normSq_I, Complex.normSq_zero, Complex.normSq_ofReal,
      Complex.normSq_ofNat]
    ring
  have h0 : theta 0 = 0 := by simp [theta]
  have h900 : theta 900 = Real.pi / 2 := by
    unfold theta
    push_cast
    ring
  refine ⟨rfl, hA22 i hi, hA11 i hi, hA12 i hi, hA21 i hi, hS i hi, ?_, ?_⟩
  · rw [hS 0 (by norm_num), h0]
    norm_num
  · rw [hS 900 (by norm_num), h900]
    norm_num

/-- Witness for C3 at index `0`. -/
theorem C3_round_trip_witness :
    (0 : ℕ) < 3601 ∧
    (kExt = 5 ∧
      (A22 kExt FzSynth).getD 0 0 = -5 * Complex.I ∧
      (A11 kExt thetaList FySynth).getD 0 0 =
        -5 * Complex.I * (Real.cos (theta 0) : ℂ) ∧
      (A12 kExt thetaList FzSynth).getD 0 0 = 0 ∧
      (A21 kExt FySynth).getD 0 0 = 0 ∧
      (S11 (A11 kExt thetaList FySynth) (A12 kExt thetaList FzSynth)
          (A21 kExt FySynth) (A22 kExt FzSynth)).getD 0 0 =
        1 / 2 * (25 * Real.cos (theta 0) ^ 2 + 25) ∧
      (S11 (A11 kExt thetaList FySynth) (A12 kExt thetaList FzSynth)
          (A21 kExt FySynth) (A22 kExt FzSynth)).getD 0 0 = 25 ∧
      (S11 (A11 kExt thetaList FySynth) (A12 kExt thetaList FzSynth)
          (A21 kExt FySynth) (A22 kExt FzSynth)).getD 900 0 = 12.5) :=
  ⟨by norm_num, C3_round_trip 0 (by norm_num)⟩

/-- C4 counterexample: the 3601 sample angles are not confined to the
half-open interval `[0, 2*pi)` and do not map distinct indices to distinct
directions: index 3600 carries the angle `2*pi` itself, and indices 0 and
3600 map to the same direction `(1, 0, 0)`. -/
theorem C4_counterexample :
    (0 : ℕ) ≠ 3600 ∧
    pointsList.getD 0 (0, 0, 0) = pointsList.getD 3600 (0, 0, 0) ∧
    ¬ thetaList.getD 3600 0 < 2 * Real.pi := by
  have h36 : theta 3600 = 2 * Real.pi := by
    unfold theta
    push_cast
    ring
  have h0 : theta 0 = 0 := by simp [theta]
  refine ⟨by norm_num, ?_, ?_⟩
  · rw [ListOps.pointsList_getD 0 (by norm_num),
      ListOps.pointsList_getD 3600 (by norm_num), h36, h0]
    simp [Real.cos_two_pi, Real.sin_two_pi]
  · rw [ListOps.thetaList_getD 3600 (by norm_num), h36]
    exact lt_irrefl _

/-- C4 amended: the sample angles satisfy `theta_i = i*2*pi/(N-1)` with
`N = 3601` and are evenly spaced over the closed interval `[0, 2*pi]`;
indices 0 and 3600 map to the same direction, and apart from that pair no
two distinct indices map to the same direction. -/
theorem C4_amended (i j : ℕ) (hij : i < j) (hj : j ≤ 3600)
    (hne : ¬(i = 0 ∧ j = 3600)) :
    thetaList.getD i 0 = (i : ℝ) * (2 * Real.pi) / 3600 ∧
    0 ≤ thetaList.getD i 0 ∧
    thetaList.getD i 0 ≤ 2 * Real.pi ∧
    pointsList.getD i (0, 0, 0) ≠ pointsList.getD j (0, 0, 0) := by
  have hi3 : i < 3601 := by omega
  have hj3 : j < 3601 := by omega
  have hti : thetaList.getD i 0 = theta i := ListOps.thetaList_getD i hi3
  have hpos : (0 : ℝ) < Real.pi := Real.pi_pos
  refine ⟨by rw [hti]; rfl, ?_, ?_, ?_⟩
  · rw [hti]
    unfold theta
    apply div_nonneg (mul_nonneg (Nat.cast_nonneg i) (by linarith)) (by norm_num)
  · rw [hti]
    unfold theta
    have hile : (i : ℝ) ≤ 3600 := by exact_mod_cast (by omega : i ≤ 3600)
    rw [div_le_iff₀ (by norm_num)]
    nlinarith
  · intro h
    rw [ListOps.pointsList_getD i hi3, ListOps.pointsList_getD j hj3] at h
    have h1 : Real.cos (theta i) = Real.cos (theta j) := congrArg Prod.fst h
    have h2 : Real.sin (theta i) = Real.sin (theta j) :=
      congrArg (fun p => p.2.1) h
    have hcos1 : Real.cos (theta j - theta i) = 1 := by
      rw [Real.cos_sub, ← h1, ← h2]
      linear_combination Real.sin_sq_add_cos_sq (theta i)
    have hd : theta j - theta i = ((j : ℝ) - (i : ℝ)) * (2 * Real.pi) / 3600 := by
      unfold theta
      ring
    have hsub : (0 : ℝ) < (j : ℝ) - (i : ℝ) := by
      have : (i : ℝ) < (j : ℝ) := by exact_mod_cast hij
      linarith
    have hsubl : (j : ℝ) - (i : ℝ) ≤ 3599 := by
      have hnat : j - i ≤ 3599 := by omega
      have hc : ((j - i : ℕ) : ℝ) ≤ 3599 := by exact_mod_cast hnat
      rw [Nat.cast_sub (Nat.le_of_lt hij)] at hc
      exact hc
    have hdpos : 0 < theta j - theta i := by
      rw [hd]
      apply div_pos (mul_pos hsub (by positivity)) (by norm_num)
    have hdlt : theta j - theta i < 2 * Real.pi := by
      rw [hd, div_lt_iff₀ (by norm_num)]
      nlinarith
    have hzero : theta j - theta i = 0 :=
      (Real.cos_eq_one_iff_of_lt_of_lt (by linarith) hdlt).mp hcos1
    linarith

/-- Witness for the amended C4 at indices `i = 0`, `j = 1800`. -/
theorem C4_amended_witness :
    ((0 : ℕ) < 1800 ∧ (1800 : ℕ) ≤ 3600 ∧ ¬((0 : ℕ) = 0 ∧ (1800 : ℕ) = 3600)) ∧
    (thetaList.getD 0 0 = ((0 : ℕ) : ℝ) * (2 * Real.pi) / 3600 ∧
      0 ≤ thetaList.getD 0 0 ∧
      thetaList.getD 0 0 ≤ 2 * Real.pi ∧
      pointsList.getD 0 (0, 0, 0) ≠ pointsList.getD 1800 (0, 0, 0)) :=
  ⟨⟨by norm_num, by norm_num, by norm_num⟩,
    C4_amended 0 1800 (by norm_num) (by norm_num) (by norm_num)⟩

/-- On input sequences of matching lengths the broadcasting pipeline
succeeds and returns exactly the bundled amplitude matrix. -/
theorem amplitudeMatrixNp_refines (k : ℂ) (ts : List ℝ) (Fz Fy : List CVec3)
    (hz : Fz.length = ts.length) (hy : Fy.length = ts.length) :
    amplitudeMatrixNp k ts Fz Fy = Except.ok (amplitudeMatrix k ts Fz Fy) := by
  unfold amplitudeMatrixNp
  rw [ListOps.npBinop_ok_of_eq _ _ _ (by simp [vNegC, vSinC, hz])]
  simp only [Except.bind]
  rw [ListOps.npBinop_ok_of_eq _ _ _ (by simp [vCosC, hz])]
  simp only [Except.bind]
  rw [ListOps.npBinop_ok_of_eq _ _ _
    (by simp [vNegC, vSinC, vCosC, hz])]
  simp only [Except.bind]
  rw [ListOps.npBinop_ok_of_eq _ _ _ (by simp [vNegC, vSinC, hy])]
  simp only [Except.bind]
  rw [ListOps.npBinop_ok_of_eq _ _ _ (by simp [vCosC, hy])]
  simp only [Except.bind]
  rw [ListOps.npBinop_ok_of_eq _ _ _
    (by simp [vNegC, vSinC, vCosC, hy])]
  simp only [Except.bind]
  rfl

/-- C7 counterexample: far-field sequences of unequal length (here
`F_z` of length 1 against a grid and `F_y` of length 2) do not make the
computation fail at all: numpy broadcasting silently accepts them and the
builder completes. -/
theorem C7_counterexample :
    (([⟨0, 0, 0⟩] : List CVec3).length ≠
      ([⟨0, 0, 0⟩, ⟨0, 0, 0⟩] : List CVec3).length) ∧
    (amplitudeMatrixNp 1 [0, 0] [⟨0, 0, 0⟩] [⟨0, 0, 0⟩, ⟨0, 0, 0⟩]).isOk =
      true := by
  constructor
  · norm_num
  · rfl

/-- C7 amended: no length precondition is checked before the builders run.
A far-field sequence of length 1 broadcasts silently against any angle
grid and the pipeline completes with no error; length combinations that
numpy cannot broadcast (both at least 2 and unequal) do fail, but inside
the builder's own elementwise operations with a broadcast error, not via a
prior InvalidInput check. -/
theorem C7_amended :
    (∀ (k : ℂ) (ts : List ℝ) (Fz Fy : List CVec3),
      Fz.length = 1 → Fy.length = ts.length →
      (amplitudeMatrixNp k ts Fz Fy).isOk = true) ∧
    (∀ (k : ℂ) (ts : List ℝ) (Fz Fy : List CVec3),
      2 ≤ ts.length → 2 ≤ Fz.length → Fz.length ≠ ts.length →
      amplitudeMatrixNp k ts Fz Fy = Except.error NpError.broadcastMismatch) := by
  constructor
  · intro k ts Fz Fy hFz hFy
    unfold amplitudeMatrixNp
    by_cases h1 : ts.length = 1
    · rw [ListOps.npBinop_ok_of_eq _ _ _ (by simp [vNegC, vSinC, hFz, h1])]
      simp only [Except.bind]
      rw [ListOps.npBinop_ok_of_eq _ _ _ (by simp [vCosC, hFz, h1])]
      simp only [Except.bind]
      rw [ListOps.npBinop_ok_of_eq _ _ _
        (by simp [vNegC, vSinC, vCosC, hFz, h1])]
      simp only [Except.bind]
      rw [ListOps.npBinop_ok_of_eq _ _ _ (by simp [vNegC, vSinC, hFy])]
      simp only [Except.bind]
      rw [ListOps.npBinop_ok_of_eq _ _ _ (by simp [vCosC, hFy])]
      simp only [Except.bind]
      rw [ListOps.npBinop_ok_of_eq _ _ _
        (by simp [vNegC, vSinC, vCosC, hFy])]
      rfl
    · rw [ListOps.npBinop_ok_right _ _ _
        (by simpa [vNegC, vSinC, hFz] using h1) (by simpa [vNegC, vSinC] using h1)
        (by simp [hFz])]
      simp only [Except.bind]
      rw [ListOps.npBinop_ok_right _ _ _ (by simpa [vCosC, hFz] using h1)
        (by simpa [vCosC] using h1) (by simp [hFz])]
      simp only [Except.bind]
      rw [ListOps.npBinop_ok_of_eq _ _ _
        (by simp [vNegC, vSinC, vCosC, hFz])]
      simp only [Except.bind]
      rw [ListOps.npBinop_ok_of_eq _ _ _ (by simp [vNegC, vSinC, hFy])]
      simp only [Except.bind]
      rw [ListOps.npBinop_ok_of_eq _ _ _ (by simp [vCosC, hFy])]
      simp only [Except.bind]
      rw [ListOps.npBinop_ok_of_eq _ _ _
        (by simp [vNegC, vSinC, vCosC, hFy])]
      rfl
  · intro k ts Fz Fy h2t h2z hne
    unfold amplitudeMatrixNp
    rw [ListOps.npBinop_error _ _ _
      (by simp [vNegC, vSinC]; omega) (by simp [vNegC, vSinC]; omega)
      (by simp; omega)]
    rfl

/-- Witness for the amended C7: a length-1 `F_z` against a two-point grid
broadcasts and succeeds; a length-2 `F_z` against a three-point grid fails
with the broadcast error. -/
theorem C7_amended_witness :
    (([⟨0, 0, 0⟩] : List CVec3).length = 1 ∧
      ([⟨0, 0, 0⟩, ⟨0, 0, 0⟩] : List CVec3).length = [(0 : ℝ), 0].length) ∧
    (amplitudeMatrixNp 2 [0, 0] [⟨0, 0, 0⟩] [⟨0, 0, 0⟩, ⟨0, 0, 0⟩]).isOk =
      true ∧
    amplitudeMatrixNp 2 [0, 0, 0] [⟨0, 0, 0⟩, ⟨0, 0, 0⟩] [] =
      Except.error NpError.broadcastMismatch :=
  ⟨⟨rfl, rfl⟩,
    C7_amended.1 2 [0, 0] [⟨0, 0, 0⟩] [⟨0, 0, 0⟩, ⟨0, 0, 0⟩] rfl rfl,
    C7_amended.2 2 [0, 0, 0] [⟨0, 0, 0⟩, ⟨0, 0, 0⟩] [] (by norm_num)
      (by norm_num) (by norm_num)⟩

end
